import Mathlib

/-!
Shallow embedding of `src/lib/RancherAPI.js` (rancher-upgrade-lib).

The orchestrator is modelled as a deterministic interpreter over an
`Oracle` that supplies, in order, the readings of `Date.now()` and the
bodies returned by the HTTP layer. A session state `St` records how many
clock readings and responses have been consumed and the trace of API
calls issued so far, so that theorems can speak about which calls were
made and in what order. `DELAY` only lets wall-clock time pass, which the
oracle's clock stream already accounts for, so it needs no explicit step.

JavaScript peculiarities are embedded faithfully:
  - `_apiRequest` ends in `.catch(function(err) { return console.log(...) })`,
    so a transport failure resolves the promise with `undefined`
    (`ApiResp.transportFail` below) instead of rejecting;
  - truthiness tests (`!options.serviceName`, `if (options.imageTag)`)
    treat the empty string like an absent value;
  - `typeof x === 'undefined'` tests (the rollout defaults) only fire for
    a genuinely absent field;
  - reading `.state` of `undefined` (after a swallowed transport failure
    of the upgrade POST) throws a TypeError.
-/

/-- Environment mappings (`launchConfig.environment`, request `environment`)
are association lists from variable name to value; a JS object has no
duplicate keys, which theorems assume via `Nodup` hypotheses. -/
abbrev EnvMap : Type := List (String × String)

/-- `launchConfig` of a service descriptor: the fields this flow touches. -/
structure LaunchConfig where
  imageUuid : Option String
  environment : Option EnvMap
deriving Repr, DecidableEq

/-- `actions` mapping of a service descriptor: presence of a key means the
action is currently offered; the value is the action URL. -/
structure Actions where
  upgrade : Option String
  finishupgrade : Option String
deriving Repr, DecidableEq

/-- Snapshot of a service as returned by the control plane. -/
structure ServiceDescriptor where
  state : String
  actions : Actions
  launchConfig : LaunchConfig
  secondaryLaunchConfigs : List LaunchConfig
deriving Repr, DecidableEq

/-- Caller-supplied options of `inServiceUpgrade`; every field may be
absent (`none` = the JS property is `undefined`). -/
structure UpgradeOptions where
  serviceName : Option String := none
  imageRepo : Option String := none
  imageTag : Option String := none
  environment : Option EnvMap := none
  batchSize : Option Nat := none
  intervalMillis : Option Nat := none
  startFirst : Option Bool := none
deriving Repr, DecidableEq

/-- Constructor options of `RancherAPI` that the upgrade flow reads. -/
structure Config where
  statusCheckFrequency : Nat := 20000
  serviceActiveTimeout : Nat := 180000
  serviceUpgradedTimeout : Nat := 180000
deriving Repr, DecidableEq

/-- The distinct failure branches of the source, given the names the spec's
error taxonomy assigns to them. `typeError` stands for a thrown JS
TypeError (e.g. reading a property of `undefined`). -/
inductive RancherError where
  | validationError (msg : String)
  | notFoundError
  | preconditionError (state : String)
  | unexpectedStateError (state : String)
  | timeoutError (phase : String)
  | typeError (msg : String)
deriving Repr, DecidableEq

/-- Body delivered by `_apiRequest` after its catch-all: `transportFail`
is the `undefined` a swallowed network/HTTP failure resolves with;
`svcList d` is a GET-services body with a `data` array; `svcBody s` is a
POST response body carrying one descriptor. -/
inductive ApiResp where
  | transportFail
  | svcList (data : List ServiceDescriptor)
  | svcBody (svc : ServiceDescriptor)
deriving Repr, DecidableEq

/-- The strategy payload submitted to the upgrade action. -/
structure InServiceStrategy where
  batchSize : Nat
  intervalMillis : Nat
  startFirst : Bool
  launchConfig : LaunchConfig
  secondaryLaunchConfigs : List LaunchConfig
deriving Repr, DecidableEq

/-- Body of the upgrade POST. -/
structure UpgradePayload where
  inServiceStrategy : InServiceStrategy
deriving Repr, DecidableEq

/-- One API call issued by the session, as recorded in the trace. -/
inductive ApiCall where
  | getServices (name : String)
  | postUpgrade (url : String) (payload : UpgradePayload)
  | postFinish (url : String)
deriving Repr, DecidableEq

/-- The environment a session runs against: `now i` is the i-th reading of
`Date.now()`, `resp j` the body delivered for the j-th API call. -/
structure Oracle where
  now : Nat → Nat
  resp : Nat → ApiResp

/-- Session bookkeeping: consumed clock readings, consumed responses, and
the trace of API calls issued so far (in order). -/
structure St where
  clockIdx : Nat := 0
  respIdx : Nat := 0
  calls : List ApiCall := []
deriving Repr, DecidableEq

/-- One `Date.now()` reading. -/
def readNow (o : Oracle) (s : St) : Nat × St :=
  (o.now s.clockIdx, { s with clockIdx := s.clockIdx + 1 })

/-- Issue one API call: record it in the trace and consume one response. -/
def doCall (o : Oracle) (s : St) (c : ApiCall) : ApiResp × St :=
  (o.resp s.respIdx, { s with respIdx := s.respIdx + 1, calls := s.calls ++ [c] })

/-- Final result of a session or of one wait phase. `outOfFuel` is an
artifact of the fuelled embedding, never a behavior of the code. -/
inductive Outcome where
  | ok (svc : ServiceDescriptor)
  | err (e : RancherError)
  | outOfFuel
deriving Repr, DecidableEq

/-- JS truthiness of an optional string: `undefined` and `""` are falsy. -/
def truthyStr : Option String → Bool
  | none => false
  | some s => s ≠ ""

/-- `getService(name)`: one GET to `services?name=...`; the body must be an
object with a non-empty `data` array, else the promise rejects with the
not-found error (lines 75-83). A swallowed transport failure delivers
`undefined` and lands in the same branch. -/
def getService (o : Oracle) (name : String) (s : St) :
    Except RancherError ServiceDescriptor × St :=
  let r := doCall o s (ApiCall.getServices name)
  match r.1 with
  | ApiResp.svcList (svc :: _) => (Except.ok svc, r.2)
  | _ => (Except.error RancherError.notFoundError, r.2)

/-- `waitForActive(serviceName, startTime)` (lines 199-221): capture
`startTime` on first entry, fail with the activate-timeout error when the
deadline has passed (checked before the refetch), otherwise refetch and
either return the descriptor (state `active`) or poll again after the
delay. Fuel bounds the recursion depth of the embedding. -/
def waitForActive (o : Oracle) (cfg : Config) (name : String) :
    Option Nat → Nat → St → Outcome × St
  | _, 0, s => (Outcome.outOfFuel, s)
  | startTime, fuel + 1, s =>
    let p1 : Nat × St :=
      match startTime with
      | some t => (t, s)
      | none => readNow o s
    let p2 := readNow o p1.2
    if p1.1 + cfg.serviceActiveTimeout < p2.1 then
      (Outcome.err (RancherError.timeoutError "active"), p2.2)
    else
      match getService o name p2.2 with
      | (Except.error e, s3) => (Outcome.err e, s3)
      | (Except.ok svc, s3) =>
        if svc.state ≠ "active" then
          waitForActive o cfg name (some p1.1) fuel s3
        else
          (Outcome.ok svc, s3)

/-- `waitForUpgrade(serviceName, startTime)` (lines 167-196): capture
`startTime` on first entry, fail with the upgrade-timeout error when the
deadline has passed (checked before the refetch), otherwise refetch and
classify the state: `upgrading` polls again, `upgraded` POSTs the
`finishupgrade` action (response ignored) and hands over to
`waitForActive` with a fresh start time, anything else rejects with the
unexpected-status error. -/
def waitForUpgrade (o : Oracle) (cfg : Config) (name : String) :
    Option Nat → Nat → St → Outcome × St
  | _, 0, s => (Outcome.outOfFuel, s)
  | startTime, fuel + 1, s =>
    let p1 : Nat × St :=
      match startTime with
      | some t => (t, s)
      | none => readNow o s
    let p2 := readNow o p1.2
    if p1.1 + cfg.serviceUpgradedTimeout < p2.1 then
      (Outcome.err (RancherError.timeoutError "upgrade"), p2.2)
    else
      match getService o name p2.2 with
      | (Except.error e, s3) => (Outcome.err e, s3)
      | (Except.ok svc, s3) =>
        if svc.state = "upgrading" then
          waitForUpgrade o cfg name (some p1.1) fuel s3
        else if svc.state = "upgraded" then
          match svc.actions.finishupgrade with
          | none =>
            (Outcome.err (RancherError.typeError "finishupgrade action is undefined"), s3)
          | some url =>
            let r := doCall o s3 (ApiCall.postFinish url)
            waitForActive o cfg name none fuel r.2
        else
          (Outcome.err (RancherError.unexpectedStateError svc.state), s3)

/-- Line 133-134: image reference is `docker:` + repo, with `:` + tag
appended only when `options.imageTag` is truthy (defined and non-empty). -/
def buildUuid (imageRepo : String) (imageTag : Option String) : String :=
  if truthyStr imageTag then
    "docker:" ++ imageRepo ++ ":" ++ imageTag.getD ""
  else
    "docker:" ++ imageRepo

/-- `Object.assign` step for one source entry: overwrite the first binding
of the key in the target, or append the pair when the key is absent. -/
def setKey (m : EnvMap) (k v : String) : EnvMap :=
  match m with
  | [] => [(k, v)]
  | (k0, v0) :: rest =>
    if k0 = k then (k, v) :: rest else (k0, v0) :: setKey rest k v

/-- `Object.assign(target, source)` on environment mappings (line 139):
copy each source entry into the target, left to right, overwriting. -/
def assign (target source : EnvMap) : EnvMap :=
  source.foldl (fun m kv => setKey m kv.1 kv.2) target

/-- Value bound to a key in an environment mapping (first binding wins). -/
def lookupKey (m : EnvMap) (k : String) : Option String :=
  match m with
  | [] => none
  | (k0, v0) :: rest => if k0 = k then some v0 else lookupKey rest k

/-- Keys of an environment mapping. -/
def keysOf (m : EnvMap) : List String :=
  m.map Prod.fst

/-- Options after the defaulting block (lines 115-119): `environment`
falls back to the empty mapping when falsy, and `batchSize`,
`intervalMillis`, `startFirst` fall back to 1 / 30000 / true only when
the field is `undefined` (a `typeof` test, so 0 and false survive). The
required names have already been checked truthy at this point. -/
structure ResolvedOptions where
  serviceName : String
  imageRepo : String
  imageTag : Option String
  environment : EnvMap
  batchSize : Nat
  intervalMillis : Nat
  startFirst : Bool
deriving Repr, DecidableEq

def withDefaults (o : UpgradeOptions) : ResolvedOptions where
  serviceName := o.serviceName.getD ""
  imageRepo := o.imageRepo.getD ""
  imageTag := o.imageTag
  environment := o.environment.getD []
  batchSize := o.batchSize.getD 1
  intervalMillis := o.intervalMillis.getD 30000
  startFirst := o.startFirst.getD true

/-- Payload construction (lines 132-151): set the new image uuid on the
fetched launch config, merge the request environment over the service
environment, and wrap everything with the rollout parameters;
`secondaryLaunchConfigs` passes through unchanged. -/
def buildStrategy (r : ResolvedOptions) (svc : ServiceDescriptor) : InServiceStrategy where
  batchSize := r.batchSize
  intervalMillis := r.intervalMillis
  startFirst := r.startFirst
  launchConfig :=
    { imageUuid := some (buildUuid r.imageRepo r.imageTag)
      environment := some (assign (svc.launchConfig.environment.getD []) r.environment) }
  secondaryLaunchConfigs := svc.secondaryLaunchConfigs

/-- `inServiceUpgrade(options)` (lines 109-162): validate the required
names (truthiness, before any network call), apply the defaults, fetch
the descriptor, check the precondition (`state != "active"` with no
upgrade action rejects; with an upgrade action it proceeds with only a
warning), build and POST the strategy payload to the upgrade action, then
enter `waitForUpgrade`. A swallowed transport failure of the POST
delivers `undefined`, and line 158 then throws reading `result.state`.
Posting when `actions.upgrade` is `undefined` likewise throws inside
`_apiRequest` (`path.match` of `undefined`). -/
def inServiceUpgrade (o : Oracle) (cfg : Config) (options : UpgradeOptions)
    (fuel : Nat) (s : St) : Outcome × St :=
  if truthyStr options.serviceName = false then
    (Outcome.err (RancherError.validationError "Must specify options.serviceName"), s)
  else if truthyStr options.imageRepo = false then
    (Outcome.err (RancherError.validationError "Must specify options.imageRepo"), s)
  else
    let r := withDefaults options
    match getService o r.serviceName s with
    | (Except.error e, s1) => (Outcome.err e, s1)
    | (Except.ok svc, s1) =>
      if svc.state ≠ "active" ∧ svc.actions.upgrade = none then
        (Outcome.err (RancherError.preconditionError svc.state), s1)
      else
        match svc.actions.upgrade with
        | none => (Outcome.err (RancherError.typeError "upgrade action is undefined"), s1)
        | some url =>
          let payload : UpgradePayload := ⟨buildStrategy r svc⟩
          let pr := doCall o s1 (ApiCall.postUpgrade url payload)
          match pr.1 with
          | ApiResp.transportFail =>
            (Outcome.err (RancherError.typeError "cannot read property state of undefined"), pr.2)
          | _ => waitForUpgrade o cfg r.serviceName none fuel pr.2

/-- Is this call a POST of the finishupgrade action? -/
def isFinish : ApiCall → Bool
  | ApiCall.postFinish _ => true
  | _ => false

/-- Number of finalize (finishupgrade) calls in a trace. -/
def countFinish (l : List ApiCall) : Nat :=
  l.countP isFinish

/-! Concrete services, oracles and options used to evaluate the theorems
on closed inputs. -/

/-- An oracle response stream from a finite list (anything past the end is
a transport failure). -/
def respsOf (l : List ApiResp) : Nat → ApiResp :=
  fun i => l.getD i ApiResp.transportFail

/-- A healthy active service offering both actions. -/
def svcAW : ServiceDescriptor where
  state := "active"
  actions := { upgrade := some "u-url", finishupgrade := some "f-url" }
  launchConfig :=
    { imageUuid := some "docker:org/app:v1", environment := some [("A", "1"), ("B", "2")] }
  secondaryLaunchConfigs := []

def svcUpgW : ServiceDescriptor := { svcAW with state := "upgrading" }

def svcUpgdW : ServiceDescriptor := { svcAW with state := "upgraded" }

def svcRbW : ServiceDescriptor := { svcAW with state := "rolling-back" }

/-- Not active and offering no upgrade action. -/
def svcNoUpW : ServiceDescriptor :=
  { svcAW with state := "updating-active",
               actions := { upgrade := none, finishupgrade := none } }

/-- Not active but still offering the upgrade action. -/
def svcWarnW : ServiceDescriptor := { svcAW with state := "updating-active" }

/-- A full valid request. -/
def opts1W : UpgradeOptions where
  serviceName := some "web"
  imageRepo := some "org/app"
  imageTag := some "v2"
  environment := some [("B", "3"), ("C", "4")]

/-- A minimal valid request. -/
def optsPlainW : UpgradeOptions where
  serviceName := some "web"
  imageRepo := some "org/app"

/-- A request supplying every rollout field with a defined falsy value. -/
def optsZeroW : UpgradeOptions :=
  { optsPlainW with batchSize := some 0, intervalMillis := some 0, startFirst := some false }

/-- Resolved options whose request environment collides with `svcAW`. -/
def rEnvW : ResolvedOptions where
  serviceName := "web"
  imageRepo := "org/app"
  imageTag := none
  environment := [("B", "3"), ("C", "4")]
  batchSize := 1
  intervalMillis := 30000
  startFirst := true

def cfg0 : Config := {}

/-- Clock stuck at 0, responses from a list. -/
def oracleW (l : List ApiResp) : Oracle where
  now := fun _ => 0
  resp := respsOf l

/-- A successful session in which the finishupgrade POST transport-fails:
fetch active, submit acknowledged, poll sees upgraded, finalize POST
fails on the wire (swallowed), poll sees active. -/
def oSwallowW : Oracle :=
  oracleW [ApiResp.svcList [svcAW], ApiResp.svcBody svcUpgW,
           ApiResp.svcList [svcUpgdW], ApiResp.transportFail,
           ApiResp.svcList [svcAW]]

/-- Directory returns zero matches. -/
def oEmptyW : Oracle := oracleW [ApiResp.svcList []]

/-- Directory returns two matches. -/
def oTwoW : Oracle := oracleW [ApiResp.svcList [svcAW, svcUpgW]]

def oRbW : Oracle := oracleW [ApiResp.svcList [svcRbW]]

def oUpgdW : Oracle := oracleW [ApiResp.svcList [svcUpgdW], ApiResp.svcBody svcAW]

def oActW : Oracle := oracleW [ApiResp.svcList [svcAW]]

def oNoUpW : Oracle := oracleW [ApiResp.svcList [svcNoUpW]]

def oWarnW : Oracle := oracleW [ApiResp.svcList [svcWarnW], ApiResp.svcBody svcUpgW]

/-- Clock far past both default deadlines. -/
def oLateW : Oracle where
  now := fun _ => 1000000
  resp := respsOf []

/-! Lemmas about `setKey` / `assign` (the `Object.assign` embedding). -/

theorem lookupKey_setKey_self (m : EnvMap) (k v : String) :
    lookupKey (setKey m k v) k = some v := by
  induction m with
  | nil => simp [setKey, lookupKey]
  | cons p rest ih =>
    rcases p with ⟨k0, v0⟩
    by_cases h : k0 = k
    · subst h
      simp [setKey, lookupKey]
    · simp [setKey, lookupKey, h, ih]

theorem lookupKey_setKey_of_ne (m : EnvMap) (k v a : String) (h : ¬ k = a) :
    lookupKey (setKey m k v) a = lookupKey m a := by
  induction m with
  | nil => simp [setKey, lookupKey, h]
  | cons p rest ih =>
    rcases p with ⟨k0, v0⟩
    by_cases h0 : k0 = k
    · subst h0
      simp [setKey, lookupKey, h]
    · by_cases ha : k0 = a
      · have ha2 : ¬ a = k := fun hk => h hk.symm
        simp [setKey, lookupKey, h0, ha, ha2]
      · simp [setKey, lookupKey, h0, ha, ih]

theorem mem_keysOf_setKey_self (m : EnvMap) (k v : String) :
    k ∈ keysOf (setKey m k v) := by
  induction m with
  | nil => simp [setKey, keysOf]
  | cons p rest ih =>
    rcases p with ⟨k0, v0⟩
    by_cases h : k0 = k
    · subst h
      simp [setKey, keysOf]
    · simp only [setKey, h, if_false, keysOf, List.map_cons, List.mem_cons]
      exact Or.inr ih

theorem mem_keysOf_setKey_of_mem (m : EnvMap) (k v a : String) (h : a ∈ keysOf m) :
    a ∈ keysOf (setKey m k v) := by
  induction m with
  | nil => simp [keysOf] at h
  | cons p rest ih =>
    rcases p with ⟨k0, v0⟩
    simp only [keysOf, List.map_cons, List.mem_cons] at h
    by_cases h0 : k0 = k
    · subst h0
      simp only [setKey, eq_self_iff_true, if_true, keysOf, List.map_cons, List.mem_cons]
      exact h
    · simp only [setKey, h0, if_false, keysOf, List.map_cons, List.mem_cons]
      rcases h with h | h
      · exact Or.inl h
      · exact Or.inr (ih h)

theorem lookupKey_eq_none_of_not_mem (m : EnvMap) (k : String) (h : k ∉ keysOf m) :
    lookupKey m k = none := by
  induction m with
  | nil => rfl
  | cons p rest ih =>
    rcases p with ⟨k0, v0⟩
    simp only [keysOf, List.map_cons, List.mem_cons, not_or] at h
    have h0 : ¬ k0 = k := fun hk => h.1 hk.symm
    simp [lookupKey, h0, ih h.2]

theorem assign_nil (E : EnvMap) : assign E [] = E := rfl

theorem assign_cons (E : EnvMap) (p : String × String) (R : EnvMap) :
    assign E (p :: R) = assign (setKey E p.1 p.2) R := rfl

theorem lookupKey_assign_of_none (R : EnvMap) (k : String) :
    ∀ E : EnvMap, lookupKey R k = none → lookupKey (assign E R) k = lookupKey E k := by
  induction R with
  | nil => intro E _; rfl
  | cons p R ih =>
    intro E h
    rcases p with ⟨k0, v0⟩
    by_cases h0 : k0 = k
    · subst h0
      simp [lookupKey] at h
    · simp only [lookupKey, h0, if_false] at h
      rw [assign_cons, ih _ h, lookupKey_setKey_of_ne _ _ _ _ h0]

theorem lookupKey_assign_of_some (R : EnvMap) (k v : String) :
    (keysOf R).Nodup →
    ∀ E : EnvMap, lookupKey R k = some v → lookupKey (assign E R) k = some v := by
  induction R with
  | nil => intro _ E h; simp [lookupKey] at h
  | cons p R ih =>
    intro hnd E h
    rcases p with ⟨k0, v0⟩
    simp only [keysOf, List.map_cons, List.nodup_cons] at hnd
    by_cases h0 : k0 = k
    · subst h0
      simp only [lookupKey, eq_self_iff_true, if_true, Option.some.injEq] at h
      subst h
      rw [assign_cons,
        lookupKey_assign_of_none R k0 _ (lookupKey_eq_none_of_not_mem R k0 hnd.1)]
      exact lookupKey_setKey_self E k0 v0
    · simp only [lookupKey, h0, if_false] at h
      rw [assign_cons]
      exact ih hnd.2 _ h

theorem mem_keysOf_assign_left (R : EnvMap) (k : String) :
    ∀ E : EnvMap, k ∈ keysOf E → k ∈ keysOf (assign E R) := by
  induction R with
  | nil => intro E h; exact h
  | cons p R ih =>
    intro E h
    rw [assign_cons]
    exact ih _ (mem_keysOf_setKey_of_mem E p.1 p.2 k h)

theorem mem_keysOf_assign_right (R : EnvMap) (k : String) :
    ∀ E : EnvMap, k ∈ keysOf R → k ∈ keysOf (assign E R) := by
  induction R with
  | nil => intro E h; simp [keysOf] at h
  | cons p R ih =>
    intro E h
    rcases p with ⟨k0, v0⟩
    simp only [keysOf, List.map_cons, List.mem_cons] at h
    rw [assign_cons]
    rcases h with h | h
    · subst h
      exact mem_keysOf_assign_left R k _ (mem_keysOf_setKey_self E k v0)
    · exact ih _ h

/-! Lemmas about the wait phases. -/

theorem countFinish_append (l1 l2 : List ApiCall) :
    countFinish (l1 ++ l2) = countFinish l1 + countFinish l2 := by
  simp [countFinish, List.countP_append]

/-- The active-wait phase never issues a finalize call: it only refetches. -/
theorem waitForActive_countFinish (o : Oracle) (cfg : Config) (name : String) :
    ∀ (fuel : Nat) (st0 : Option Nat) (s : St),
      countFinish ((waitForActive o cfg name st0 fuel s).2.calls) = countFinish s.calls := by
  intro fuel
  induction fuel with
  | zero => intro st0 s; rfl
  | succ n ih =>
    intro st0 s
    rcases st0 with _ | t <;>
    · simp only [waitForActive, readNow, getService, doCall]
      split
      · rfl
      · rcases hr : o.resp s.respIdx with _ | d | svc0
        · simp only [hr]
          simp [countFinish, isFinish, List.countP_append]
        · rcases d with _ | ⟨svc, rest⟩
          · simp only [hr]
            simp [countFinish, isFinish, List.countP_append]
          · simp only [hr]
            split
            · rw [ih]
              simp [countFinish, isFinish, List.countP_append]
            · simp [countFinish, isFinish, List.countP_append]
        · simp only [hr]
          simp [countFinish, isFinish, List.countP_append]

/-- The active-wait phase only ends in: out of fuel (an embedding
artifact), an active descriptor, its timeout error, or the lookup's
not-found error. In particular it never reports an unexpected state. -/
theorem waitForActive_outcomes (o : Oracle) (cfg : Config) (name : String) :
    ∀ (fuel : Nat) (st0 : Option Nat) (s : St),
      (waitForActive o cfg name st0 fuel s).1 = Outcome.outOfFuel ∨
      (∃ svc : ServiceDescriptor,
        (waitForActive o cfg name st0 fuel s).1 = Outcome.ok svc ∧ svc.state = "active") ∨
      (waitForActive o cfg name st0 fuel s).1 = Outcome.err (RancherError.timeoutError "active") ∨
      (waitForActive o cfg name st0 fuel s).1 = Outcome.err RancherError.notFoundError := by
  intro fuel
  induction fuel with
  | zero => intro st0 s; exact Or.inl rfl
  | succ n ih =>
    intro st0 s
    rcases st0 with _ | t <;>
    · simp only [waitForActive, readNow, getService, doCall]
      split
      · right; right; left; rfl
      · rcases hr : o.resp s.respIdx with _ | d | svc0
        · simp [hr]
        · rcases d with _ | ⟨svc, rest⟩
          · simp [hr]
          · simp only [hr]
            by_cases hs : svc.state = "active"
            · simp only [hs, ne_eq, not_true_eq_false, if_false]
              right; left; exact ⟨svc, rfl, hs⟩
            · simp only [ne_eq, hs, not_false_eq_true, if_true]
              exact ih _ _
        · simp [hr]

/-! Claim theorems. -/

/-- Claim C6, counterexample: a request whose `imageTag` is present but
equal to the empty string is treated like an absent tag by the truthiness
test on line 134, so the constructed image uuid is `docker:org/app`, not
`docker:` + repo + `:` + tag as the claim states for every present tag. -/
theorem C6_counterexample :
    buildUuid "org/app" (some "") = "docker:org/app" ∧
    buildUuid "org/app" (some "") ≠ "docker:org/app" ++ ":" ++ "" := by
  constructor
  · rfl
  · decide

/-- Claim C6 (amended): the image uuid set during payload construction is
`docker:` + imageRepo when `imageTag` is absent or falsy (the empty
string), and `docker:` + imageRepo + `:` + imageTag when `imageTag` is
present and non-empty. -/
theorem buildUuid_spec (repo : String) (tag : Option String) :
    (truthyStr tag = false → buildUuid repo tag = "docker:" ++ repo) ∧
    (∀ t : String, tag = some t → ¬ t = "" →
      buildUuid repo tag = "docker:" ++ repo ++ ":" ++ t) := by
  constructor
  · intro h
    simp [buildUuid, h]
  · intro t ht hne
    subst ht
    simp [buildUuid, truthyStr, hne]

/-- Witness for C6 at concrete inputs: no tag and tag `v2`. -/
theorem C6_witness :
    buildUuid "org/app" none = "docker:" ++ "org/app" ∧
    buildUuid "org/app" (some "v2") = "docker:" ++ "org/app" ++ ":" ++ "v2" :=
  ⟨(buildUuid_spec "org/app" none).1 rfl,
   (buildUuid_spec "org/app" (some "v2")).2 "v2" rfl (by decide)⟩

/-- Claim C7: payload construction merges the request environment over the
service environment: the resulting `launchConfig.environment` is
`assign E R`; it contains every key of `E` and every key of `R`; on a key
bound in `R` the request value wins; and on a key not bound in `R` the
service binding is preserved. -/
theorem buildStrategy_environment_merge (r : ResolvedOptions) (svc : ServiceDescriptor)
    (E : EnvMap) (hE : svc.launchConfig.environment = some E) :
    (buildStrategy r svc).launchConfig.environment = some (assign E r.environment) ∧
    (∀ k : String, k ∈ keysOf E → k ∈ keysOf (assign E r.environment)) ∧
    (∀ k : String, k ∈ keysOf r.environment → k ∈ keysOf (assign E r.environment)) ∧
    ((keysOf r.environment).Nodup → ∀ k v : String,
      lookupKey r.environment k = some v → lookupKey (assign E r.environment) k = some v) ∧
    (∀ k : String, lookupKey r.environment k = none →
      lookupKey (assign E r.environment) k = lookupKey E k) := by
  refine ⟨?_, ?_, ?_, ?_, ?_⟩
  · simp [buildStrategy, hE]
  · intro k hk
    exact mem_keysOf_assign_left r.environment k E hk
  · intro k hk
    exact mem_keysOf_assign_right r.environment k E hk
  · intro hnd k v hk
    exact lookupKey_assign_of_some r.environment k v hnd E hk
  · intro k hk
    exact lookupKey_assign_of_none r.environment k E hk

/-- Witness for C7: the spec's own example, existing environment
`{A:1, B:2}` and request environment `{B:3, C:4}` give `{A:1, B:3, C:4}`. -/
theorem C7_witness :
    (buildStrategy rEnvW svcAW).launchConfig.environment
      = some [("A", "1"), ("B", "3"), ("C", "4")] ∧
    lookupKey (assign [("A", "1"), ("B", "2")] [("B", "3"), ("C", "4")]) "B" = some "3" := by
  constructor
  · exact ((buildStrategy_environment_merge rEnvW svcAW [("A", "1"), ("B", "2")] rfl).1).trans
      (by decide)
  · exact (buildStrategy_environment_merge rEnvW svcAW [("A", "1"), ("B", "2")] rfl).2.2.2.1
      (by decide) "B" "3" (by decide)

/-- Claim C10: a rollout field supplied with a defined falsy value
(`batchSize = 0`, `intervalMillis = 0`, `startFirst = false`) survives
into the submitted strategy payload, because the defaulting block tests
`typeof === 'undefined'`; the defaults 1 / 30000 / true apply only to
absent fields. -/
theorem strategy_preserves_supplied_falsy (o : UpgradeOptions) (svc : ServiceDescriptor)
    (b i : Nat) (f : Bool) :
    (o.batchSize = some b → (buildStrategy (withDefaults o) svc).batchSize = b) ∧
    (o.intervalMillis = some i → (buildStrategy (withDefaults o) svc).intervalMillis = i) ∧
    (o.startFirst = some f → (buildStrategy (withDefaults o) svc).startFirst = f) ∧
    (o.batchSize = none → (buildStrategy (withDefaults o) svc).batchSize = 1) ∧
    (o.intervalMillis = none → (buildStrategy (withDefaults o) svc).intervalMillis = 30000) ∧
    (o.startFirst = none → (buildStrategy (withDefaults o) svc).startFirst = true) := by
  refine ⟨?_, ?_, ?_, ?_, ?_, ?_⟩ <;> intro h <;> simp [buildStrategy, withDefaults, h]

/-- Witness for C10: a request with `batchSize = 0`, `intervalMillis = 0`
and `startFirst = false` keeps all three in the payload. -/
theorem C10_witness :
    (buildStrategy (withDefaults optsZeroW) svcAW).batchSize = 0 ∧
    (buildStrategy (withDefaults optsZeroW) svcAW).intervalMillis = 0 ∧
    (buildStrategy (withDefaults optsZeroW) svcAW).startFirst = false :=
  ⟨(strategy_preserves_supplied_falsy optsZeroW svcAW 0 0 false).1 rfl,
   (strategy_preserves_supplied_falsy optsZeroW svcAW 0 0 false).2.1 rfl,
   (strategy_preserves_supplied_falsy optsZeroW svcAW 0 0 false).2.2.1 rfl⟩

/-- Claim C8: `getService` rejects with the not-found error whenever the
directory query returns zero matches — including a transport-successful
empty `data` array and a swallowed transport failure — and resolves with
the first match whenever one or more are returned, with no ambiguity
check. Either way exactly one query is issued. -/
theorem getService_first_match (o : Oracle) (name : String) (s : St) :
    ((o.resp s.respIdx = ApiResp.svcList [] ∨ o.resp s.respIdx = ApiResp.transportFail) →
      getService o name s =
        (Except.error RancherError.notFoundError,
         { s with respIdx := s.respIdx + 1, calls := s.calls ++ [ApiCall.getServices name] })) ∧
    (∀ (svc : ServiceDescriptor) (rest : List ServiceDescriptor),
      o.resp s.respIdx = ApiResp.svcList (svc :: rest) →
      getService o name s =
        (Except.ok svc,
         { s with respIdx := s.respIdx + 1, calls := s.calls ++ [ApiCall.getServices name] })) := by
  constructor
  · rintro (h | h) <;> simp [getService, doCall, h]
  · intro svc rest h
    simp [getService, doCall, h]

/-- Witness for C8: an empty directory answer rejects not-found; a
two-element answer resolves with the first service. -/
theorem C8_witness :
    getService oEmptyW "web" {} =
      (Except.error RancherError.notFoundError,
       { clockIdx := 0, respIdx := 1, calls := [ApiCall.getServices "web"] }) ∧
    getService oTwoW "web" {} =
      (Except.ok svcAW,
       { clockIdx := 0, respIdx := 1, calls := [ApiCall.getServices "web"] }) :=
  ⟨(getService_first_match oEmptyW "web" {}).1 (Or.inl rfl),
   (getService_first_match oTwoW "web" {}).2 svcAW [svcUpgW] rfl⟩

/-- Claim C4: a request missing `serviceName` or missing `imageRepo` makes
`inServiceUpgrade` reject with a validation error, with the session state
untouched — in particular no API call has been issued. -/
theorem inServiceUpgrade_validates_first (o : Oracle) (cfg : Config)
    (options : UpgradeOptions) (fuel : Nat) (s : St)
    (h : options.serviceName = none ∨ options.imageRepo = none) :
    inServiceUpgrade o cfg options fuel s =
        (Outcome.err (RancherError.validationError "Must specify options.serviceName"), s) ∨
    inServiceUpgrade o cfg options fuel s =
        (Outcome.err (RancherError.validationError "Must specify options.imageRepo"), s) := by
  rcases h with h | h
  · left
    simp [inServiceUpgrade, truthyStr, h]
  · by_cases hs : truthyStr options.serviceName = false
    · left
      simp [inServiceUpgrade, hs]
    · right
      have hs2 : truthyStr options.serviceName = true := by
        cases hb : truthyStr options.serviceName
        · exact absurd hb hs
        · rfl
      have hir : truthyStr options.imageRepo = false := by
        simp [truthyStr, h]
      simp [inServiceUpgrade, hs2, hir]

/-- Witness for C4: the empty request is rejected without any call. -/
theorem C4_witness :
    inServiceUpgrade oEmptyW cfg0 {} 5 {} =
        (Outcome.err (RancherError.validationError "Must specify options.serviceName"), {}) ∨
    inServiceUpgrade oEmptyW cfg0 {} 5 {} =
        (Outcome.err (RancherError.validationError "Must specify options.imageRepo"), {}) :=
  inServiceUpgrade_validates_first oEmptyW cfg0 {} 5 {} (Or.inl rfl)

/-- Claim C3: in both wait phases the deadline test runs before the
refetch (a timed-out phase rejects with its timeout error without issuing
any call or consuming any response), and a phase entered without a start
time captures the clock reading at entry as its start time, so the
upgraded-wait and active-wait phases have independent budgets. -/
theorem wait_deadline_semantics (o : Oracle) (cfg : Config) (name : String)
    (t fuel : Nat) (s : St) :
    (t + cfg.serviceUpgradedTimeout < o.now s.clockIdx →
      waitForUpgrade o cfg name (some t) (fuel + 1) s =
        (Outcome.err (RancherError.timeoutError "upgrade"),
         { s with clockIdx := s.clockIdx + 1 })) ∧
    (t + cfg.serviceActiveTimeout < o.now s.clockIdx →
      waitForActive o cfg name (some t) (fuel + 1) s =
        (Outcome.err (RancherError.timeoutError "active"),
         { s with clockIdx := s.clockIdx + 1 })) ∧
    (waitForUpgrade o cfg name none (fuel + 1) s =
      waitForUpgrade o cfg name (some (o.now s.clockIdx)) (fuel + 1)
        { s with clockIdx := s.clockIdx + 1 }) ∧
    (waitForActive o cfg name none (fuel + 1) s =
      waitForActive o cfg name (some (o.now s.clockIdx)) (fuel + 1)
        { s with clockIdx := s.clockIdx + 1 }) := by
  refine ⟨?_, ?_, ?_, ?_⟩
  · intro h
    simp [waitForUpgrade, readNow, h]
  · intro h
    simp [waitForActive, readNow, h]
  · rfl
  · rfl

/-- Witness for C3: with the clock far past the deadline, each phase
rejects with its own timeout error and the trace stays empty. -/
theorem C3_witness :
    waitForUpgrade oLateW cfg0 "web" (some 0) 1 {} =
      (Outcome.err (RancherError.timeoutError "upgrade"),
       { clockIdx := 1, respIdx := 0, calls := [] }) ∧
    waitForActive oLateW cfg0 "web" (some 0) 1 {} =
      (Outcome.err (RancherError.timeoutError "active"),
       { clockIdx := 1, respIdx := 0, calls := [] }) :=
  ⟨(wait_deadline_semantics oLateW cfg0 "web" 0 0 {}).1 (by decide),
   (wait_deadline_semantics oLateW cfg0 "web" 0 0 {}).2.1 (by decide)⟩

/-- Claim C1: within the deadline, the upgraded-wait phase classifies the
refetched state: `upgrading` polls again (only the refetch is added to
the trace), the first `upgraded` issues exactly one finishupgrade POST
and hands over to the active-wait phase (which itself never issues a
finalize call, so the finalize count stays at one), and any other state
rejects immediately with the unexpected-state error carrying that state,
with no finalize call and no further API call. -/
theorem waitForUpgrade_classifies (o : Oracle) (cfg : Config) (name : String)
    (t fuel : Nat) (s : St) (svc : ServiceDescriptor) (rest : List ServiceDescriptor)
    (hnow : ¬ t + cfg.serviceUpgradedTimeout < o.now s.clockIdx)
    (hresp : o.resp s.respIdx = ApiResp.svcList (svc :: rest)) :
    (svc.state = "upgrading" →
      waitForUpgrade o cfg name (some t) (fuel + 1) s =
        waitForUpgrade o cfg name (some t) fuel
          { clockIdx := s.clockIdx + 1, respIdx := s.respIdx + 1,
            calls := s.calls ++ [ApiCall.getServices name] }) ∧
    (∀ url : String, svc.state = "upgraded" → svc.actions.finishupgrade = some url →
      waitForUpgrade o cfg name (some t) (fuel + 1) s =
        waitForActive o cfg name none fuel
          { clockIdx := s.clockIdx + 1, respIdx := s.respIdx + 2,
            calls := s.calls ++ [ApiCall.getServices name, ApiCall.postFinish url] }) ∧
    (¬ svc.state = "upgrading" → ¬ svc.state = "upgraded" →
      waitForUpgrade o cfg name (some t) (fuel + 1) s =
        (Outcome.err (RancherError.unexpectedStateError svc.state),
         { clockIdx := s.clockIdx + 1, respIdx := s.respIdx + 1,
           calls := s.calls ++ [ApiCall.getServices name] })) ∧
    (∀ (st0 : Option Nat) (f0 : Nat) (s0 : St),
      countFinish ((waitForActive o cfg name st0 f0 s0).2.calls) = countFinish s0.calls) := by
  refine ⟨?_, ?_, ?_, ?_⟩
  · intro hs
    simp [waitForUpgrade, readNow, getService, doCall, hnow, hresp, hs]
  · intro url hs hfin
    have h1 : ¬ svc.state = "upgrading" := by
      rw [hs]; decide
    simp [waitForUpgrade, readNow, getService, doCall, hnow, hresp, h1, hs, hfin]
  · intro h1 h2
    simp [waitForUpgrade, readNow, getService, doCall, hnow, hresp, h1, h2]
  · intro st0 f0 s0
    exact waitForActive_countFinish o cfg name f0 st0 s0

/-- Witness for C1: a `rolling-back` tick rejects immediately with the
unexpected-state error after only the refetch; an `upgraded` tick posts
exactly one finalize and enters the active-wait phase fresh. -/
theorem C1_witness :
    waitForUpgrade oRbW cfg0 "web" (some 0) 3 {} =
      (Outcome.err (RancherError.unexpectedStateError "rolling-back"),
       { clockIdx := 1, respIdx := 1, calls := [ApiCall.getServices "web"] }) ∧
    waitForUpgrade oUpgdW cfg0 "web" (some 0) 3 {} =
      waitForActive oUpgdW cfg0 "web" none 2
        { clockIdx := 1, respIdx := 2,
          calls := [ApiCall.getServices "web", ApiCall.postFinish "f-url"] } :=
  ⟨(waitForUpgrade_classifies oRbW cfg0 "web" 0 2 {} svcRbW [] (by decide) rfl).2.2.1
      (by decide) (by decide),
   (waitForUpgrade_classifies oUpgdW cfg0 "web" 0 2 {} svcUpgdW [] (by decide) rfl).2.1
      "f-url" rfl rfl⟩

/-- Claim C9, counterexample: the active-wait phase has a failure mode
other than the timeout error — a refetch that returns zero matches makes
the phase reject with the lookup's not-found error. -/
theorem C9_counterexample :
    (waitForActive oEmptyW cfg0 "web" none 3 {}).1 = Outcome.err RancherError.notFoundError ∧
    Outcome.err RancherError.notFoundError ≠
      Outcome.err (RancherError.timeoutError "active") := by
  exact ⟨rfl, by decide⟩

/-- Claim C9 (amended): within the deadline, a refetched descriptor with
state `active` ends the active-wait phase successfully with that
descriptor, and any other observed state only schedules another poll
tick; the phase never produces an unexpected-state error — its failure
modes are its timeout error and the lookup's not-found error. -/
theorem waitForActive_classifies (o : Oracle) (cfg : Config) (name : String)
    (t fuel : Nat) (s : St) (svc : ServiceDescriptor) (rest : List ServiceDescriptor)
    (hnow : ¬ t + cfg.serviceActiveTimeout < o.now s.clockIdx)
    (hresp : o.resp s.respIdx = ApiResp.svcList (svc :: rest)) :
    (svc.state = "active" →
      waitForActive o cfg name (some t) (fuel + 1) s =
        (Outcome.ok svc,
         { clockIdx := s.clockIdx + 1, respIdx := s.respIdx + 1,
           calls := s.calls ++ [ApiCall.getServices name] })) ∧
    (¬ svc.state = "active" →
      waitForActive o cfg name (some t) (fuel + 1) s =
        waitForActive o cfg name (some t) fuel
          { clockIdx := s.clockIdx + 1, respIdx := s.respIdx + 1,
            calls := s.calls ++ [ApiCall.getServices name] }) ∧
    (∀ (st0 : Option Nat) (f0 : Nat) (s0 : St),
      (waitForActive o cfg name st0 f0 s0).1 = Outcome.outOfFuel ∨
      (∃ svc0 : ServiceDescriptor,
        (waitForActive o cfg name st0 f0 s0).1 = Outcome.ok svc0 ∧ svc0.state = "active") ∨
      (waitForActive o cfg name st0 f0 s0).1 = Outcome.err (RancherError.timeoutError "active") ∨
      (waitForActive o cfg name st0 f0 s0).1 = Outcome.err RancherError.notFoundError) := by
  refine ⟨?_, ?_, ?_⟩
  · intro hs
    simp [waitForActive, readNow, getService, doCall, hnow, hresp, hs]
  · intro hs
    simp [waitForActive, readNow, getService, doCall, hnow, hresp, hs]
  · intro st0 f0 s0
    exact waitForActive_outcomes o cfg name f0 st0 s0

/-- Witness for C9: an `active` tick returns the descriptor. -/
theorem C9_witness :
    waitForActive oActW cfg0 "web" (some 0) 3 {} =
      (Outcome.ok svcAW,
       { clockIdx := 1, respIdx := 1, calls := [ApiCall.getServices "web"] }) :=
  (waitForActive_classifies oActW cfg0 "web" 0 2 {} svcAW [] (by decide) rfl).1 rfl

/-- Claim C5: for a valid request, a fetched descriptor that is not
`active` and offers no upgrade action makes the session reject with the
precondition error right after the lookup — nothing is submitted; if the
upgrade action is present the session proceeds (warning only): it
submits the strategy payload to that action and carries on into the
upgraded-wait phase (unless the POST itself transport-fails, in which
case line 158 throws reading `result.state` of `undefined`). -/
theorem precondition_gate (o : Oracle) (cfg : Config) (options : UpgradeOptions)
    (fuel : Nat) (s : St) (svc : ServiceDescriptor) (rest : List ServiceDescriptor)
    (hsn : truthyStr options.serviceName = true)
    (hir : truthyStr options.imageRepo = true)
    (hresp : o.resp s.respIdx = ApiResp.svcList (svc :: rest))
    (hstate : ¬ svc.state = "active") :
    (svc.actions.upgrade = none →
      inServiceUpgrade o cfg options fuel s =
        (Outcome.err (RancherError.preconditionError svc.state),
         { clockIdx := s.clockIdx, respIdx := s.respIdx + 1,
           calls := s.calls ++ [ApiCall.getServices (withDefaults options).serviceName] })) ∧
    (∀ url : String, svc.actions.upgrade = some url →
      inServiceUpgrade o cfg options fuel s =
        (let s2 : St :=
          { clockIdx := s.clockIdx, respIdx := s.respIdx + 2,
            calls := s.calls ++
              [ApiCall.getServices (withDefaults options).serviceName,
               ApiCall.postUpgrade url ⟨buildStrategy (withDefaults options) svc⟩] }
         match o.resp (s.respIdx + 1) with
         | ApiResp.transportFail =>
           (Outcome.err (RancherError.typeError "cannot read property state of undefined"), s2)
         | _ => waitForUpgrade o cfg (withDefaults options).serviceName none fuel s2)) := by
  constructor
  · intro hu
    simp [inServiceUpgrade, getService, doCall, hsn, hir, hresp, hstate, hu]
  · intro url hu
    simp [inServiceUpgrade, getService, doCall, hsn, hir, hresp, hstate, hu]

/-- Witness for C5: a non-active service without an upgrade action is
rejected after one lookup; a non-active service with an upgrade action
gets the upgrade submitted as the second call. -/
theorem C5_witness :
    inServiceUpgrade oNoUpW cfg0 optsPlainW 5 {} =
      (Outcome.err (RancherError.preconditionError "updating-active"),
       { clockIdx := 0, respIdx := 1, calls := [ApiCall.getServices "web"] }) ∧
    (inServiceUpgrade oWarnW cfg0 optsPlainW 5 {}).2.calls.take 2 =
      [ApiCall.getServices "web",
       ApiCall.postUpgrade "u-url" ⟨buildStrategy (withDefaults optsPlainW) svcWarnW⟩] := by
  constructor
  · exact (precondition_gate oNoUpW cfg0 optsPlainW 5 {} svcNoUpW [] rfl rfl rfl
      (by decide)).1 rfl
  · have h := (precondition_gate oWarnW cfg0 optsPlainW 5 {} svcWarnW [] rfl rfl rfl
      (by decide)).2 "u-url" rfl
    rw [h]
    rfl

/-- Claim C2 (evidence of the divergence): the `catch` on lines 60-64
resolves a failed call with `undefined` instead of rejecting, so a
transport failure of the finalize POST is swallowed — in this run the
finishupgrade POST fails on the wire, yet the session continues into the
active-wait phase and ends successfully, instead of failing with a
transport error. -/
theorem C2_transport_failure_swallowed :
    oSwallowW.resp 3 = ApiResp.transportFail ∧
    (inServiceUpgrade oSwallowW cfg0 opts1W 10 {}).1 = Outcome.ok svcAW ∧
    countFinish (inServiceUpgrade oSwallowW cfg0 opts1W 10 {}).2.calls = 1 :=
  ⟨rfl, rfl, rfl⟩
